import Mathlib

/-! # SDImageGenerator: the generation session controller

A shallow embedding of `TextToImageBackend` (src/src/texttoimagebackend.cpp) and of
`DiffusionEnvValidator` (src/src/diffusionenvvalidator.cpp).

* The controller object is a record of its member variables; every slot and method is a
  function from record to record.
* Qt signals emitted by the controller, modal dialogs it opens and calls it makes on its
  worker objects are appended, in program order, to the `log` field of the record.
* `qDebug()`/`qInfo()` output is not modelled; `tr` is the identity on strings.
* The classes `DiffusionProcess`, `InstallerProcess`, `Utils`, `DiffusionOptions` live outside
  the two source files; what the controller uses of them is taken as a parameter.
-/

namespace SDImageGenerator

/-! ## Collaborators outside the two source files -/

/-- Modelled from the spec: the enumeration `StableDiffusionStatus` is declared outside the
sources, which only name `NotStarted`; the remaining members are the worker lifecycle states
listed in section 4.2 of the specification. -/
inductive StableDiffusionStatus where
  | NotStarted
  | Starting
  | Running
  | Stopping
  | Finished
  deriving DecidableEq, Repr

/-- The members of `DiffusionOptions` read or written by the controller. -/
structure DiffusionOptions where
  prompt : String
  seed : String
  saveDir : String
  useTextualInversion : Bool
  tiConceptStyle : String
  imageToImage : Bool
  initImagePath : String
  useMaskImage : Bool
  maskImagePath : String
  fitImage : Bool
  faceRestoration : Bool
  faceRestorationMethod : String
  useCustomModel : Bool
  deriving DecidableEq, Repr

/-- The four flags of `DiffusionEnvironmentStatus` set by `environmentCurrentStatus`. -/
structure DiffusionEnvironmentStatus where
  isPythonEnvReady : Bool
  isStableDiffusionModelReady : Bool
  isGfpGanModelReady : Bool
  isCodeFormerModelReady : Bool
  deriving DecidableEq, Repr

/-- The generation worker `DiffusionProcess`, whose implementation is outside the sources:
an arbitrary state type `W` with the queries and commands the controller uses. -/
structure DiffusionProcess (W : Type) where
  getUseTiConcept : W → Bool
  getCurTiConcept : W → String
  isDreamRunning : W → Bool
  getStatus : W → StableDiffusionStatus
  getSamplesPath : W → String
  stopProcess : W → W
  generateImages : DiffusionOptions → Bool → W → W

/-- A file system: each existing path carries the bytes stored there. -/
abbrev FileSystem := String → Option (List Nat)

/-- Modelled from the spec: `Utils::checkPathExists` is outside the sources; it reports
whether something exists at the path. -/
def checkPathExists (fs : FileSystem) (path : String) : Bool :=
  (fs path).isSome

/-- The value of `QFile(path).size()`: the byte length of the file, `0` when the file does not
exist. -/
def fileSize (fs : FileSystem) (path : String) : Nat :=
  match fs path with
  | some bytes => bytes.length
  | none => 0

/-- What the controller and the validator read from their surroundings during one call:
the file system, `DiffusionEnvironment::getStableDiffusionModelPath()`, the constant
`STABLE_DIFFUSION_MODEL_1_4_FILE_SIZE`, and the results of the validator methods
`validateGfpGanModel`, `validateCodeFormerModel` and `getDeviceInfo`, which are declared
outside the sources. -/
structure Surroundings where
  fs : FileSystem
  stableDiffusionModelPath : String
  STABLE_DIFFUSION_MODEL_1_4_FILE_SIZE : Nat
  validateGfpGanModel : Bool
  validateCodeFormerModel : Bool
  deviceInfo : String

/-- A `QUrl`, given by the string its `toLocalFile()` returns. -/
structure QUrl where
  toLocalFile : String
  deriving DecidableEq, Repr

/-! ## DiffusionEnvValidator -/

/-- `DiffusionEnvValidator::validateModelFile` (diffusionenvvalidator.cpp:53-57). -/
def validateModelFile (env : Surroundings) : Bool :=
  env.STABLE_DIFFUSION_MODEL_1_4_FILE_SIZE == fileSize env.fs env.stableDiffusionModelPath

/-- `DiffusionEnvValidator::validateModelPath` (diffusionenvvalidator.cpp:33-39). -/
def validateModelPath (env : Surroundings) : Bool :=
  if checkPathExists env.fs env.stableDiffusionModelPath then
    validateModelFile env
  else
    false

/-- `DiffusionEnvValidator::validateModelFileSize` (diffusionenvvalidator.cpp:41-44). -/
def validateModelFileSize (env : Surroundings) : Bool :=
  validateModelFile env

/-- `DiffusionEnvValidator::packageValidationCompleted` (diffusionenvvalidator.cpp:46-51):
the pair of arguments of the emitted `environmentCurrentStatus` signal. -/
def packageValidationCompleted (env : Surroundings) (_exitCode : Int) (isPackagesReady : Bool) :
    Bool × Bool :=
  let modelReady := validateModelPath env
  (isPackagesReady, modelReady)

/-! ## TextToImageBackend: observable actions and state -/

/-- Signals of the generation worker connected to controller slots in the constructor
(texttoimagebackend.cpp:32-37). -/
inductive DiffusionSignal where
  | generatingImages
  | imagesGenerated
  | diffusionFinished
  | gotConsoleLog (message : String)
  | cudaMemoryError
  | stopped
  deriving DecidableEq, Repr

/-- One entry of the controller's log: a signal it emits, a dialog it opens, a call it makes
on a worker object, or the delivery of a generation-worker signal to it. Progress values are
the literals `0.0` and `1.0` of the source, kept as exact rationals. -/
inductive Action where
  | gotErrorMessage
  | showMessageBox
  | statusChanged
  | samplesPathChanged
  | isProcessingChanged
  | isCancelledChanged
  | isModelLoadedChanged
  | installerStatusChanged (message : String) (progress : Rat)
  | downloaderStatusChanged (message : String) (progress : Rat)
  | closeLoadingScreen
  | environmentNotReady
  | initControls
  | showDreamPage
  | msgBoxCritical (text : String)
  | diffusionStopProcess
  | diffusionGenerateImages (options : DiffusionOptions) (isVariation : Bool)
  | newInstallerProcess (handle : Nat)
  | installPipPackages (handle : Nat)
  | delivered (signal : DiffusionSignal)
  deriving DecidableEq, Repr

/-- The member variables of `TextToImageBackend`. A worker handle is `none` for `nullptr` and
`some h` for the `h`-th `InstallerProcess` object allocated by the controller; `allocated`
counts those allocations. `log` is the sequence of actions performed so far. -/
structure TextToImageBackend (W : Type) where
  isProcessing : Bool
  isModelLoaded : Bool
  isCancelled : Bool
  diffusionStatusMsg : String
  installerStatusMsg : String
  errorMsg : String
  samplesPath : String
  deafultAssetsPath : String
  m_options : DiffusionOptions
  m_envStatus : DiffusionEnvironmentStatus
  stableDiffusion : W
  modelDownloader : Option Nat
  pythonEnvInstaller : Option Nat
  allocated : Nat
  log : List Action

variable {W : Type}

/-- Append actions to the log. -/
def record (as : List Action) (s : TextToImageBackend W) : TextToImageBackend W :=
  { s with log := s.log ++ as }

/-- The actions performed between state `s` and a later state `r`. -/
def performed (s r : TextToImageBackend W) : List Action :=
  r.log.drop s.log.length

/-- `Utils::localPathToUrl`, outside the sources; the URL of a local path is represented by
the path. -/
def localPathToUrl (path : String) : String := path

/-- `TextToImageBackend::showErrorDlg` (texttoimagebackend.cpp:149-154). -/
def showErrorDlg (error : String) (s : TextToImageBackend W) : TextToImageBackend W :=
  record [.gotErrorMessage, .showMessageBox] { s with errorMsg := error }

/-- `TextToImageBackend::updateStatusMessage` (texttoimagebackend.cpp:417-422). -/
def updateStatusMessage (message : String) (s : TextToImageBackend W) : TextToImageBackend W :=
  record [.statusChanged] { s with diffusionStatusMsg := message }

/-- The call `stableDiffusion->stopProcess()`. -/
def callStopProcess (P : DiffusionProcess W) (s : TextToImageBackend W) : TextToImageBackend W :=
  record [.diffusionStopProcess] { s with stableDiffusion := P.stopProcess s.stableDiffusion }

/-- The call `stableDiffusion->generateImages(m_options, isVariation)`. -/
def callGenerateImages (P : DiffusionProcess W) (isVariation : Bool) (s : TextToImageBackend W) :
    TextToImageBackend W :=
  record [.diffusionGenerateImages s.m_options isVariation]
    { s with stableDiffusion := P.generateImages s.m_options isVariation s.stableDiffusion }

/-- `TextToImageBackend::isValidInitImage` (texttoimagebackend.cpp:495-498). -/
def isValidInitImage (env : Surroundings) (s : TextToImageBackend W) : Bool :=
  checkPathExists env.fs s.m_options.initImagePath

/-! ## TextToImageBackend: generation -/

/-- The head of `TextToImageBackend::generateImage` (texttoimagebackend.cpp:56-68): the
cancellation flag is cleared and the worker is told to stop when its textual-inversion mode,
or its current concept, differs from the options. -/
def generateImage_tiChecks (P : DiffusionProcess W) (s0 : TextToImageBackend W) :
    TextToImageBackend W :=
  let s1 := { s0 with isCancelled := false }
  let s2 :=
    if P.getUseTiConcept s1.stableDiffusion != s1.m_options.useTextualInversion then
      callStopProcess P s1
    else s1
  if s2.m_options.useTextualInversion then
    if !(P.getCurTiConcept s2.stableDiffusion == "")
        && P.getCurTiConcept s2.stableDiffusion != s2.m_options.tiConceptStyle then
      callStopProcess P s2
    else s2
  else s2

/-- The tail of `TextToImageBackend::generateImage` (texttoimagebackend.cpp:117-135): status
message, start of the worker, `isProcessing = true`, sample path reset. -/
def generateImage_start (P : DiffusionProcess W) (isVariation : Bool) (s : TextToImageBackend W) :
    TextToImageBackend W :=
  let s1 :=
    if P.getStatus s.stableDiffusion = StableDiffusionStatus.NotStarted then
      updateStatusMessage "Loading model,please wait..." s
    else
      updateStatusMessage "Starting image generation..." s
  let s2 := callGenerateImages P isVariation s1
  let s3 := { s2 with isProcessing := true, samplesPath := localPathToUrl s2.deafultAssetsPath }
  record [.samplesPathChanged, .isProcessingChanged] s3

/-- The precondition checks of `TextToImageBackend::generateImage`
(texttoimagebackend.cpp:70-115), in source order, each failing check ending the call with
`showErrorDlg`; when all pass, the call continues with `generateImage_start`. -/
def generateImage_checks (P : DiffusionProcess W) (env : Surroundings) (isVariation : Bool)
    (s : TextToImageBackend W) : TextToImageBackend W :=
  let promptAndStart : TextToImageBackend W :=
    if s.m_options.prompt == "" then
      showErrorDlg "Please provide a prompt text." s
    else
      generateImage_start P isVariation s
  let faceRestorationOnwards : TextToImageBackend W :=
    if s.m_options.faceRestoration then
      if s.m_options.faceRestorationMethod == "GFPGAN" then
        if !env.validateGfpGanModel then
          showErrorDlg
            "To use face restoration, please download GFPGAN model from downloads tab." s
        else promptAndStart
      else
        if !env.validateCodeFormerModel then
          showErrorDlg
            "To use face restoration, please download Code Former model from downloads tab." s
        else promptAndStart
    else promptAndStart
  if isVariation && !P.isDreamRunning s.stableDiffusion then
    showErrorDlg "To generate image variations,please generate images first." s
  else if !checkPathExists env.fs s.m_options.saveDir then
    showErrorDlg "Please choose a output directory from settings tab." s
  else if s.m_options.imageToImage then
    if !isValidInitImage env s then
      showErrorDlg "File not found,please choose a valid initial image" s
    else if s.m_options.useMaskImage then
      if !checkPathExists env.fs s.m_options.maskImagePath then
        showErrorDlg "File not found,please choose a valid mask image" s
      else faceRestorationOnwards
    else faceRestorationOnwards
  else faceRestorationOnwards

/-- `TextToImageBackend::generateImage` (texttoimagebackend.cpp:54-136). -/
def generateImage (P : DiffusionProcess W) (env : Surroundings) (isVariation : Bool)
    (s : TextToImageBackend W) : TextToImageBackend W :=
  generateImage_checks P env isVariation (generateImage_tiChecks P s)

/-- `TextToImageBackend::stopProcessing` (texttoimagebackend.cpp:138-147). -/
def stopProcessing (P : DiffusionProcess W) (s : TextToImageBackend W) : TextToImageBackend W :=
  let s1 := updateStatusMessage "Cancelling please wait..." s
  let s2 := callStopProcess P s1
  record [.isCancelledChanged, .isProcessingChanged]
    { s2 with isProcessing := false, isModelLoaded := false, isCancelled := true }

/-- `TextToImageBackend::stableDiffusionFinished` (texttoimagebackend.cpp:183-186). -/
def stableDiffusionFinished (s : TextToImageBackend W) : TextToImageBackend W := s

/-- `TextToImageBackend::generatingImages` (texttoimagebackend.cpp:202-207). -/
def generatingImages (s : TextToImageBackend W) : TextToImageBackend W :=
  let s1 := updateStatusMessage "Generating images..." s
  record [.isModelLoadedChanged] { s1 with isModelLoaded := true }

/-- `TextToImageBackend::updateCompleted` (texttoimagebackend.cpp:214-222). -/
def updateCompleted (P : DiffusionProcess W) (s : TextToImageBackend W) : TextToImageBackend W :=
  let s1 := { s with isProcessing := false }
  let s2 := updateStatusMessage "Completed." s1
  record [.isProcessingChanged, .samplesPathChanged]
    { s2 with samplesPath := P.getSamplesPath s2.stableDiffusion }

/-- `TextToImageBackend::imagesGenerated` (texttoimagebackend.cpp:209-212). -/
def imagesGenerated (P : DiffusionProcess W) (s : TextToImageBackend W) : TextToImageBackend W :=
  updateCompleted P s

/-- `TextToImageBackend::cudaMemoryError` (texttoimagebackend.cpp:273-286): a critical message
box whose text depends on the image-to-image and fit-image options. -/
def cudaMemoryError (s : TextToImageBackend W) : TextToImageBackend W :=
  let text :=
    if s.m_options.imageToImage && !s.m_options.fitImage then
      "CUDA memory error: Please reduce initialization image size or enable fit image in settings"
    else if s.m_options.imageToImage && s.m_options.fitImage then
      "CUDA memory error: Please reduce image size in settings"
    else
      "CUDA memory error: Failed to generate image,please reduce image size."
  record [.msgBoxCritical text] s

/-- `TextToImageBackend::diffusionCancelled` (texttoimagebackend.cpp:346-349). -/
def diffusionCancelled (s : TextToImageBackend W) : TextToImageBackend W :=
  updateStatusMessage "Stopped image generation." s

/-- The signal-slot connections made in the constructor (texttoimagebackend.cpp:32-37): the
delivery of a generation-worker signal is logged and the connected slot runs. -/
def deliver (P : DiffusionProcess W) (signal : DiffusionSignal) (s : TextToImageBackend W) :
    TextToImageBackend W :=
  let s1 := record [.delivered signal] s
  match signal with
  | .generatingImages => generatingImages s1
  | .imagesGenerated => imagesGenerated P s1
  | .diffusionFinished => stableDiffusionFinished s1
  | .gotConsoleLog message => updateStatusMessage message s1
  | .cudaMemoryError => cudaMemoryError s1
  | .stopped => diffusionCancelled s1

/-! ## TextToImageBackend: environment set-up -/

/-- `TextToImageBackend::installPythonEnv` (texttoimagebackend.cpp:253-261): the install
worker is allocated when the handle is null, then `installPipPackages` is called on it. -/
def installPythonEnv (s : TextToImageBackend W) : TextToImageBackend W :=
  match s.pythonEnvInstaller with
  | none =>
    let h := s.allocated
    let s1 := record [.newInstallerProcess h]
      { s with pythonEnvInstaller := some h, allocated := s.allocated + 1 }
    record [.installPipPackages h] s1
  | some h => record [.installPipPackages h] s

/-- `TextToImageBackend::handlePackagesStatus` (texttoimagebackend.cpp:306-316). -/
def handlePackagesStatus (isPackagesReady : Bool) (s : TextToImageBackend W) :
    TextToImageBackend W :=
  if !isPackagesReady then
    let s1 := installPythonEnv s
    record [.installerStatusChanged "Setting up,please wait..." 0] s1
  else
    record [.closeLoadingScreen] s

/-- `TextToImageBackend::handleModelStatus` (texttoimagebackend.cpp:318-328). -/
def handleModelStatus (isStableDiffusionModelReady : Bool) (s : TextToImageBackend W) :
    TextToImageBackend W :=
  if isStableDiffusionModelReady then s
  else record [.environmentNotReady] s

/-- `TextToImageBackend::environmentCurrentStatus` (texttoimagebackend.cpp:288-304). -/
def environmentCurrentStatus (env : Surroundings) (isPackagesReady : Bool)
    (isStableDiffusionModelReady : Bool) (s : TextToImageBackend W) : TextToImageBackend W :=
  let s1 := handlePackagesStatus isPackagesReady s
  let s2 :=
    if !s1.m_options.useCustomModel then handleModelStatus isStableDiffusionModelReady s1
    else s1
  let s3 := { s2 with m_envStatus :=
    { isPythonEnvReady := isPackagesReady
      isStableDiffusionModelReady := isStableDiffusionModelReady
      isGfpGanModelReady := env.validateGfpGanModel
      isCodeFormerModelReady := env.validateCodeFormerModel } }
  let s4 := updateStatusMessage env.deviceInfo s3
  record [.initControls] s4

/-- `TextToImageBackend::installCompleted` (texttoimagebackend.cpp:459-480). -/
def installCompleted (env : Surroundings) (exitCode : Int) (isDownloader : Bool)
    (s : TextToImageBackend W) : TextToImageBackend W :=
  if isDownloader then
    if checkPathExists env.fs env.stableDiffusionModelPath && exitCode == 0 then
      let msg := "Downloaded model successfully,please restart app."
      record [.downloaderStatusChanged msg 1] s
    else
      let msg := "Model download failed,check logs."
      record [.downloaderStatusChanged msg 0] s
  else
    record [.closeLoadingScreen] s

/-! ## TextToImageBackend: variations -/

/-- `QString::split(sep)` on the characters of a string: the maximal pieces between
occurrences of `sep`, empty pieces kept. -/
def splitChars (sep : Char) : List Char → List (List Char)
  | [] => [[]]
  | c :: cs =>
    if c = sep then [] :: splitChars sep cs
    else
      match splitChars sep cs with
      | [] => [[c]]
      | piece :: pieces => (c :: piece) :: pieces

/-- `QFileInfo::fileName()`: the path without its directory part, that is, what follows the
last `/`. -/
def fileName (path : String) : String :=
  String.mk ((splitChars '/' path.data).getLastD [])

/-- `QString::split(".")` as a list of strings. -/
def splitDot (name : String) : List String :=
  (splitChars '.' name.data).map String.mk

/-- `TextToImageBackend::getSeedFromFileName` (texttoimagebackend.cpp:482-493). -/
def getSeedFromFileName (imagePath : QUrl) : String :=
  let seedNum := ""
  let fileNameSplits := splitDot (fileName imagePath.toLocalFile)
  if h : fileNameSplits.length > 1 then
    fileNameSplits[1]
  else
    seedNum

/-- `TextToImageBackend::generateVariations` (texttoimagebackend.cpp:381-389). -/
def generateVariations (P : DiffusionProcess W) (env : Surroundings) (imagePath : QUrl)
    (s : TextToImageBackend W) : TextToImageBackend W :=
  let seedNumber := getSeedFromFileName imagePath
  let s1 := { s with m_options := { s.m_options with seed := seedNumber } }
  let s2 := generateImage P env true s1
  record [.showDreamPage] s2

/-! ## Preconditions of a generation request -/

/-- The preconditions tested by `generateImage` (texttoimagebackend.cpp:70-115). -/
inductive Precondition where
  | baseRun
  | outputDir
  | initImage
  | maskImage
  | restorationModel
  | prompt
  deriving DecidableEq, Repr

/-- Whether a precondition is violated, as the condition of the matching `if` in
`generateImage` reads it from the worker, the options and the surroundings. The mask image is
only looked at for image-to-image requests with mask mode on, the restoration model only when
face restoration is on, where the method `"GFPGAN"` selects the GFPGAN model and any other
method the Code Former model. -/
def Precondition.violated (P : DiffusionProcess W) (env : Surroundings) (isVariation : Bool)
    (w : W) (o : DiffusionOptions) : Precondition → Bool
  | .baseRun => isVariation && !P.isDreamRunning w
  | .outputDir => !checkPathExists env.fs o.saveDir
  | .initImage => o.imageToImage && !checkPathExists env.fs o.initImagePath
  | .maskImage => o.imageToImage && o.useMaskImage && !checkPathExists env.fs o.maskImagePath
  | .restorationModel =>
    o.faceRestoration &&
      !(if o.faceRestorationMethod == "GFPGAN" then env.validateGfpGanModel
        else env.validateCodeFormerModel)
  | .prompt => o.prompt == ""

/-- The text passed to `showErrorDlg` for each precondition. -/
def Precondition.message (o : DiffusionOptions) : Precondition → String
  | .baseRun => "To generate image variations,please generate images first."
  | .outputDir => "Please choose a output directory from settings tab."
  | .initImage => "File not found,please choose a valid initial image"
  | .maskImage => "File not found,please choose a valid mask image"
  | .restorationModel =>
    if o.faceRestorationMethod == "GFPGAN" then
      "To use face restoration, please download GFPGAN model from downloads tab."
    else
      "To use face restoration, please download Code Former model from downloads tab."
  | .prompt => "Please provide a prompt text."

/-- The order in which `generateImage` tests the preconditions (texttoimagebackend.cpp:70-115). -/
def sourceOrder : List Precondition :=
  [.baseRun, .outputDir, .initImage, .maskImage, .restorationModel, .prompt]

/-- The order of validation written in section 4.3, step 3 of the specification: output
directory, source image, mask image, prompt, restoration model. -/
def specOrder : List Precondition :=
  [.outputDir, .initImage, .maskImage, .prompt, .restorationModel]

/-- The first violated precondition in a given order of testing. -/
def firstViolated (order : List Precondition) (P : DiffusionProcess W) (env : Surroundings)
    (isVariation : Bool) (w : W) (o : DiffusionOptions) : Option Precondition :=
  order.find? (Precondition.violated P env isVariation w o)

/-- Observable values of a generation worker. -/
structure WorkerView where
  useTiConcept : Bool
  curTiConcept : String
  dreamRunning : Bool
  status : StableDiffusionStatus
  samplesPath : String
  deriving DecidableEq, Repr

/-- Modelled from the spec: the implementation of `DiffusionProcess` is outside the sources.
Following section 5 ("stop is cooperative and asynchronous: `stop()` returns immediately; the
actual halt is signaled later"), neither command changes what the queries return during the
controller call that issues it; later changes reach the controller as delivered signals. -/
def asyncWorker : DiffusionProcess WorkerView where
  getUseTiConcept w := w.useTiConcept
  getCurTiConcept w := w.curTiConcept
  isDreamRunning w := w.dreamRunning
  getStatus w := w.status
  getSamplesPath w := w.samplesPath
  stopProcess w := w
  generateImages _ _ w := w

/-- Options of a plain text-to-image request with the prompt `"a cat"`. -/
def plainOptions : DiffusionOptions where
  prompt := "a cat"
  seed := ""
  saveDir := "/out"
  useTextualInversion := false
  tiConceptStyle := ""
  imageToImage := false
  initImagePath := ""
  useMaskImage := false
  maskImagePath := ""
  fitImage := false
  faceRestoration := false
  faceRestorationMethod := "GFPGAN"
  useCustomModel := false

/-- A worker that has generated images without textual inversion. -/
def idleWorker : WorkerView where
  useTiConcept := false
  curTiConcept := ""
  dreamRunning := true
  status := .Running
  samplesPath := "/out/samples"

/-- The controller as the constructor leaves it (texttoimagebackend.cpp:20-52), for given
options and worker; `isModelLoaded`, which the constructor does not set, is `false`. -/
def freshBackend (options : DiffusionOptions) (worker : WorkerView) :
    TextToImageBackend WorkerView where
  isProcessing := false
  isModelLoaded := false
  isCancelled := false
  diffusionStatusMsg := ""
  installerStatusMsg := ""
  errorMsg := ""
  samplesPath := "/app/default"
  deafultAssetsPath := "/app/default"
  m_options := options
  m_envStatus := ⟨false, false, false, false⟩
  stableDiffusion := worker
  modelDownloader := none
  pythonEnvInstaller := none
  allocated := 0
  log := []

/-- Options with an empty prompt and textual inversion on. -/
def emptyPromptOptions : DiffusionOptions :=
  { plainOptions with prompt := "", useTextualInversion := true, tiConceptStyle := "monet" }

/-- Options with an empty prompt and face restoration by GFPGAN. -/
def faceRestorationOptions : DiffusionOptions :=
  { plainOptions with prompt := "", faceRestoration := true }

/-- A controller whose previous run was cancelled (`isCancelled = true`, as `stopProcessing`
leaves it) and whose options have an empty prompt. -/
def cancelledBackend : TextToImageBackend WorkerView :=
  { freshBackend emptyPromptOptions idleWorker with
    isCancelled := true, diffusionStatusMsg := "Cancelling please wait..." }

/-- Surroundings in which the output directory `/out` exists, the model file holds three bytes
(the expected size being three) and no face-restoration model is ready. -/
def sampleSurroundings : Surroundings where
  fs := fun p =>
    if p = "/out" then some []
    else if p = "/models/sd-v1-4.ckpt" then some [1, 2, 3]
    else none
  stableDiffusionModelPath := "/models/sd-v1-4.ckpt"
  STABLE_DIFFUSION_MODEL_1_4_FILE_SIZE := 3
  validateGfpGanModel := false
  validateCodeFormerModel := false
  deviceInfo := "cpu"

/-- The sample surroundings before any download: nothing exists at the model path. -/
def surroundingsWithoutModel : Surroundings :=
  { sampleSurroundings with fs := fun p => if p = "/out" then some [] else none }

end SDImageGenerator

/-! ## Theorems -/

namespace SDImageGenerator

variable {W : Type}

theorem performed_of_log_eq {s r : TextToImageBackend W} {as : List Action}
    (h : r.log = s.log ++ as) : performed s r = as := by
  simp [performed, h]

theorem performed_self (s : TextToImageBackend W) : performed s s = [] := by
  simp [performed]

/-! ### Model readiness -/

/-- C5: `validateModelPath`, which is also the `modelReady` value passed on by
`packageValidationCompleted`, is true exactly when a file exists at the Stable Diffusion model
path and its byte length equals `STABLE_DIFFUSION_MODEL_1_4_FILE_SIZE`; with the path and the
constant fixed it depends only on that length, so files of equal size give equal results
whatever their bytes. -/
theorem validateModelPath_iff_exists_and_size (env : Surroundings) :
    (validateModelPath env = true ↔
      ∃ bytes, env.fs env.stableDiffusionModelPath = some bytes ∧
        bytes.length = env.STABLE_DIFFUSION_MODEL_1_4_FILE_SIZE) ∧
    (∀ (exitCode : Int) (isPackagesReady : Bool),
      packageValidationCompleted env exitCode isPackagesReady
        = (isPackagesReady, validateModelPath env)) ∧
    (∀ (fs2 : FileSystem) (bytes bytes2 : List Nat),
      env.fs env.stableDiffusionModelPath = some bytes →
      fs2 env.stableDiffusionModelPath = some bytes2 →
      bytes2.length = bytes.length →
      validateModelPath { env with fs := fs2 } = validateModelPath env) := by
  refine ⟨?_, ?_, ?_⟩
  · unfold validateModelPath validateModelFile checkPathExists fileSize
    cases h : env.fs env.stableDiffusionModelPath with
    | none => simp
    | some bytes =>
      simp
      exact eq_comm
  · intro _ _
    rfl
  · intro fs2 bytes bytes2 h1 h2 hlen
    simp [validateModelPath, validateModelFile, checkPathExists, fileSize, h1, h2, hlen]

/-- Witness for C5: a model file of the expected size, and a second file of the same size with
other bytes. -/
theorem validateModelPath_iff_exists_and_size_witness :
    validateModelPath sampleSurroundings = true ∧
    validateModelPath
      { sampleSurroundings with fs := fun _ => some [7, 8, 9] } = true :=
  ⟨(validateModelPath_iff_exists_and_size sampleSurroundings).1.2 ⟨[1, 2, 3], rfl, rfl⟩,
    ((validateModelPath_iff_exists_and_size sampleSurroundings).2.2
      (fun _ => some [7, 8, 9]) [1, 2, 3] [7, 8, 9] rfl rfl rfl).trans
      ((validateModelPath_iff_exists_and_size sampleSurroundings).1.2 ⟨[1, 2, 3], rfl, rfl⟩)⟩

/-! ### Completion of a download -/

/-- C6: for every exit code and file system, `installCompleted` called for a download emits
the status "Downloaded model successfully,please restart app." with progress 1 exactly when
the exit code is 0 and the model file exists at the target path, and in every other case emits
"Model download failed,check logs." with progress 0; exit code 0 with the file absent is a
failure. Nothing else is emitted. -/
theorem installCompleted_download_success_iff (env : Surroundings) (exitCode : Int)
    (s : TextToImageBackend W) :
    (performed s (installCompleted env exitCode true s)
        = [.downloaderStatusChanged "Downloaded model successfully,please restart app." 1] ↔
      (exitCode = 0 ∧ ∃ bytes, env.fs env.stableDiffusionModelPath = some bytes)) ∧
    (performed s (installCompleted env exitCode true s)
        = [.downloaderStatusChanged "Model download failed,check logs." 0] ↔
      ¬ (exitCode = 0 ∧ ∃ bytes, env.fs env.stableDiffusionModelPath = some bytes)) ∧
    (exitCode = 0 → env.fs env.stableDiffusionModelPath = none →
      performed s (installCompleted env exitCode true s)
        = [.downloaderStatusChanged "Model download failed,check logs." 0]) := by
  have hne : ("Downloaded model successfully,please restart app." : String)
      ≠ "Model download failed,check logs." := by decide
  have hne2 : ("Model download failed,check logs." : String)
      ≠ "Downloaded model successfully,please restart app." := by decide
  cases hfs : env.fs env.stableDiffusionModelPath with
  | none =>
    simp [installCompleted, checkPathExists, hfs, record, performed, hne2]
  | some bytes =>
    by_cases hc : exitCode = 0
    · simp [installCompleted, checkPathExists, hfs, record, performed, hc, hne]
    · simp [installCompleted, checkPathExists, hfs, record, performed, hc, hne2]

/-- Witness for C6: exit code 0 while nothing exists at the model path. -/
theorem installCompleted_download_success_iff_witness :
    surroundingsWithoutModel.fs surroundingsWithoutModel.stableDiffusionModelPath = none ∧
    performed (freshBackend plainOptions idleWorker)
        (installCompleted surroundingsWithoutModel 0 true (freshBackend plainOptions idleWorker))
      = [.downloaderStatusChanged "Model download failed,check logs." 0] :=
  ⟨by decide,
    (installCompleted_download_success_iff surroundingsWithoutModel 0
      (freshBackend plainOptions idleWorker)).2.2 rfl (by decide)⟩

/-! ### Readiness report and installation of the runtime -/

theorem installPythonEnv_log (s : TextToImageBackend W) :
    (installPythonEnv s).log = s.log ++
      (match s.pythonEnvInstaller with
        | none => [.newInstallerProcess s.allocated, .installPipPackages s.allocated]
        | some h => [.installPipPackages h]) := by
  unfold installPythonEnv
  cases s.pythonEnvInstaller <;> simp [record]

theorem installPythonEnv_options (s : TextToImageBackend W) :
    (installPythonEnv s).m_options = s.m_options := by
  unfold installPythonEnv
  cases s.pythonEnvInstaller <;> simp [record]

/-- C7: for every readiness report and every value of the custom-model option,
`environmentCurrentStatus` calls `installPipPackages` on the install worker (the effect of
`installPythonEnv`) iff packages are not ready, emits `closeLoadingScreen` iff packages are
ready, and emits `environmentNotReady` iff the model flag is false and custom-model mode is
off. With packages not ready and the model ready, the install is started and
`environmentNotReady` is not emitted. -/
theorem environmentCurrentStatus_branches (env : Surroundings)
    (isPackagesReady isStableDiffusionModelReady : Bool) (s : TextToImageBackend W) :
    ((∃ h, Action.installPipPackages h ∈
        performed s (environmentCurrentStatus env isPackagesReady isStableDiffusionModelReady s))
      ↔ isPackagesReady = false) ∧
    (Action.closeLoadingScreen ∈
        performed s (environmentCurrentStatus env isPackagesReady isStableDiffusionModelReady s)
      ↔ isPackagesReady = true) ∧
    (Action.environmentNotReady ∈
        performed s (environmentCurrentStatus env isPackagesReady isStableDiffusionModelReady s)
      ↔ (isStableDiffusionModelReady = false ∧ s.m_options.useCustomModel = false)) ∧
    ((∃ h, Action.installPipPackages h ∈ performed s (environmentCurrentStatus env false true s)) ∧
      Action.environmentNotReady ∉ performed s (environmentCurrentStatus env false true s)) := by
  have key : ∀ (pk md : Bool),
      performed s (environmentCurrentStatus env pk md s) =
        (if pk then [Action.closeLoadingScreen]
          else (match s.pythonEnvInstaller with
            | none => [.newInstallerProcess s.allocated, .installPipPackages s.allocated]
            | some h => [.installPipPackages h])
            ++ [.installerStatusChanged "Setting up,please wait..." 0])
        ++ (if !s.m_options.useCustomModel && !md then [Action.environmentNotReady] else [])
        ++ [.statusChanged, .initControls] := by
    intro pk md
    apply performed_of_log_eq
    cases pk <;> cases md <;> cases hc : s.m_options.useCustomModel <;>
      simp [environmentCurrentStatus, handlePackagesStatus, handleModelStatus, record,
        updateStatusMessage, installPythonEnv_log, installPythonEnv_options, hc]
  rw [key, key]
  cases isPackagesReady <;> cases isStableDiffusionModelReady <;>
    cases hc : s.m_options.useCustomModel <;> cases hp : s.pythonEnvInstaller <;> simp

/-- C8 (as amended): from a state without an install worker, two successive calls of
`installPythonEnv` allocate exactly one install worker, in the first call; the handle after
the second call is that worker; the second call allocates nothing and issues
`installPipPackages` once more on the existing handle. -/
theorem installPythonEnv_twice (s : TextToImageBackend W) (h0 : s.pythonEnvInstaller = none) :
    performed s (installPythonEnv s)
      = [.newInstallerProcess s.allocated, .installPipPackages s.allocated] ∧
    (installPythonEnv s).pythonEnvInstaller = some s.allocated ∧
    (installPythonEnv (installPythonEnv s)).pythonEnvInstaller = some s.allocated ∧
    (installPythonEnv (installPythonEnv s)).allocated = s.allocated + 1 ∧
    performed (installPythonEnv s) (installPythonEnv (installPythonEnv s))
      = [.installPipPackages s.allocated] := by
  have h1 : (installPythonEnv s).pythonEnvInstaller = some s.allocated := by
    simp [installPythonEnv, h0, record]
  have h1a : (installPythonEnv s).allocated = s.allocated + 1 := by
    simp [installPythonEnv, h0, record]
  have h2 : installPythonEnv (installPythonEnv s)
      = record [.installPipPackages s.allocated] (installPythonEnv s) := by
    generalize installPythonEnv s = t at h1
    simp [installPythonEnv, h1]
  refine ⟨?_, h1, ?_, ?_, ?_⟩
  · apply performed_of_log_eq
    rw [installPythonEnv_log, h0]
  · rw [h2]
    simpa [record] using h1
  · rw [h2]
    simpa [record] using h1a
  · apply performed_of_log_eq
    rw [h2]
    simp [record]

/-- Witness for C8: the controller as constructed, whose install handle is null. -/
theorem installPythonEnv_twice_witness :
    (freshBackend plainOptions idleWorker).pythonEnvInstaller = none ∧
    performed (installPythonEnv (freshBackend plainOptions idleWorker))
        (installPythonEnv (installPythonEnv (freshBackend plainOptions idleWorker)))
      = [.installPipPackages 0] :=
  ⟨rfl, (installPythonEnv_twice (freshBackend plainOptions idleWorker) rfl).2.2.2.2⟩

/-- C8 (counterexample): called a second time on the controller as constructed,
`installPythonEnv` does issue a further `installPipPackages` to the existing install worker. -/
theorem installPythonEnv_second_call_starts_again :
    Action.installPipPackages 0 ∈
      performed (installPythonEnv (freshBackend plainOptions idleWorker))
        (installPythonEnv (installPythonEnv (freshBackend plainOptions idleWorker))) := by
  decide

/-! ### Resource exhaustion -/

/-- C4 (as amended): for every controller state and every combination of the imageToImage and
fitImage options, handling `cudaMemoryError` only opens one critical message box, whose text
is chosen by those two options; `isProcessing`, `isModelLoaded`, `isCancelled`, the status
message and the worker are left as they were, so a session that was processing is still
processing afterwards. -/
theorem cudaMemoryError_keeps_session (P : DiffusionProcess W) (s : TextToImageBackend W) :
    (cudaMemoryError s).isProcessing = s.isProcessing ∧
    (cudaMemoryError s).isModelLoaded = s.isModelLoaded ∧
    (cudaMemoryError s).isCancelled = s.isCancelled ∧
    (cudaMemoryError s).diffusionStatusMsg = s.diffusionStatusMsg ∧
    (cudaMemoryError s).stableDiffusion = s.stableDiffusion ∧
    (deliver P .cudaMemoryError s).isProcessing = s.isProcessing ∧
    performed s (cudaMemoryError s) =
      [.msgBoxCritical
        (match s.m_options.imageToImage, s.m_options.fitImage with
          | true, false =>
            "CUDA memory error: Please reduce initialization image size or enable fit image in settings"
          | true, true => "CUDA memory error: Please reduce image size in settings"
          | false, _ =>
            "CUDA memory error: Failed to generate image,please reduce image size.")] := by
  refine ⟨rfl, rfl, rfl, rfl, rfl, rfl, ?_⟩
  apply performed_of_log_eq
  cases h1 : s.m_options.imageToImage <;> cases h2 : s.m_options.fitImage <;>
    simp [cudaMemoryError, record, h1, h2]

/-- C4 (counterexample): a controller that is generating (`isProcessing = true`) still has
`isProcessing = true` after the worker's `cudaMemoryError` signal has been handled. -/
theorem cudaMemoryError_still_processing :
    (generateImage asyncWorker sampleSurroundings false
        (freshBackend plainOptions idleWorker)).isProcessing = true ∧
    (deliver asyncWorker .cudaMemoryError
      (generateImage asyncWorker sampleSurroundings false
        (freshBackend plainOptions idleWorker))).isProcessing = true := by
  decide

/-! ### Seed extraction -/

theorem splitChars_no_sep (sep : Char) (seg : List Char) (h : sep ∉ seg) :
    splitChars sep seg = [seg] := by
  induction seg with
  | nil => rfl
  | cons c cs ih =>
    have hc : c ≠ sep := fun e => h (by simp [e])
    have hcs : sep ∉ cs := fun m => h (List.mem_cons_of_mem _ m)
    simp [splitChars, hc, ih hcs]

theorem splitChars_append_sep (sep : Char) (seg tail : List Char) (h : sep ∉ seg) :
    splitChars sep (seg ++ sep :: tail) = seg :: splitChars sep tail := by
  induction seg with
  | nil => simp [splitChars]
  | cons c cs ih =>
    have hc : c ≠ sep := fun e => h (by simp [e])
    have hcs : sep ∉ cs := fun m => h (List.mem_cons_of_mem _ m)
    simp [splitChars, hc, ih hcs]

/-- Splitting the pieces joined by the separator gives the pieces back. -/
theorem splitChars_intercalate (sep : Char) (segs : List (List Char)) (hne : segs ≠ [])
    (h : ∀ seg ∈ segs, sep ∉ seg) :
    splitChars sep ([sep].intercalate segs) = segs := by
  induction segs with
  | nil => exact absurd rfl hne
  | cons seg rest ih =>
    cases rest with
    | nil =>
      simpa [List.intercalate] using splitChars_no_sep sep seg (h seg (by simp))
    | cons seg2 rest2 =>
      have ih2 := ih (by simp) (fun x hx => h x (List.mem_cons_of_mem _ hx))
      have hseg : sep ∉ seg := h seg (by simp)
      have e : [sep].intercalate (seg :: seg2 :: rest2)
          = seg ++ sep :: [sep].intercalate (seg2 :: rest2) := by
        simp [List.intercalate, List.intersperse]
      rw [e, splitChars_append_sep sep seg _ hseg, ih2]

/-- Joining the pieces of a split gives the string back, and no piece holds the separator:
every string is the join of its pieces. -/
theorem intercalate_splitChars (sep : Char) (cs : List Char) :
    [sep].intercalate (splitChars sep cs) = cs ∧ ∀ seg ∈ splitChars sep cs, sep ∉ seg := by
  induction cs with
  | nil => simp [splitChars, List.intercalate]
  | cons c cs ih =>
    obtain ⟨ih1, ih2⟩ := ih
    by_cases hc : c = sep
    · subst hc
      cases hsp : splitChars c cs with
      | nil =>
        rw [hsp] at ih1
        simp [List.intercalate] at ih1
        subst ih1
        simp [splitChars, List.intercalate, List.intersperse]
      | cons p ps =>
        rw [hsp] at ih1 ih2
        refine ⟨?_, ?_⟩
        · simp only [splitChars, if_true, hsp]
          simpa [List.intercalate, List.intersperse] using ih1
        · intro seg hseg
          simp only [splitChars, if_true, hsp, List.mem_cons] at hseg
          rcases hseg with rfl | hseg
          · simp
          · exact ih2 seg (by simpa using hseg)
    · cases hsp : splitChars sep cs with
      | nil =>
        rw [hsp] at ih1
        simp [List.intercalate] at ih1
        subst ih1
        simp [splitChars, hc, List.intercalate, Ne.symm hc]
      | cons p ps =>
        rw [hsp] at ih1 ih2
        refine ⟨?_, ?_⟩
        · simp only [splitChars, hc, if_false, hsp]
          cases ps with
          | nil => simpa [List.intercalate] using ih1
          | cons q qs =>
            simp [List.intercalate, List.intersperse] at ih1 ⊢
            exact ih1
        · intro seg hseg
          simp only [splitChars, hc, if_false, hsp, List.mem_cons] at hseg
          rcases hseg with rfl | hseg
          · have hp := ih2 p (by simp)
            simp [Ne.symm hc, hp]
          · exact ih2 seg (by simp [hseg])

theorem not_mem_intercalate (c sep : Char) (hc : c ≠ sep) (segs : List (List Char))
    (h : ∀ seg ∈ segs, c ∉ seg) : c ∉ [sep].intercalate segs := by
  induction segs with
  | nil => simp [List.intercalate]
  | cons seg rest ih =>
    cases rest with
    | nil => simpa [List.intercalate] using h seg (by simp)
    | cons seg2 rest2 =>
      have e : [sep].intercalate (seg :: seg2 :: rest2)
          = seg ++ sep :: [sep].intercalate (seg2 :: rest2) := by
        simp [List.intercalate, List.intersperse]
      rw [e]
      intro hmem
      rcases List.mem_append.1 hmem with h1 | h1
      · exact h seg (by simp) h1
      · rcases List.mem_cons.1 h1 with h2 | h2
        · exact hc h2
        · exact ih (fun x hx => h x (List.mem_cons_of_mem _ hx)) h2

theorem fileName_of_components (dirs : List (List Char)) (name : List Char)
    (hd : ∀ d ∈ dirs, '/' ∉ d) (hn : '/' ∉ name) :
    fileName (String.mk (['/'].intercalate (dirs ++ [name]))) = String.mk name := by
  unfold fileName
  have h := splitChars_intercalate '/' (dirs ++ [name]) (by simp) (by
    intro seg hseg
    rcases List.mem_append.1 hseg with h1 | h1
    · exact hd seg h1
    · simp at h1
      subst h1
      exact hn)
  simp only [h]
  simp [List.getLastD_eq_getLast?]

theorem getSeedFromFileName_eq (imagePath : QUrl) :
    getSeedFromFileName imagePath
      = String.mk ((splitChars '.' (fileName imagePath.toLocalFile).data).getD 1 []) := by
  unfold getSeedFromFileName splitDot
  simp only []
  split
  · rename_i h
    simp [List.getD_eq_getElem?_getD, List.getElem?_map] at h ⊢
    rw [List.getElem?_eq_getElem h]
    simp
  · rename_i h
    simp at h
    rw [List.getD_eq_default _ _ (by simpa using h)]

/-! ### Shape of a generation request -/

/-- The precondition checks of `generateImage` end with the error dialog of the first violated
precondition in source order, and start the worker when none is violated. -/
theorem generateImage_checks_eq (P : DiffusionProcess W) (env : Surroundings)
    (isVariation : Bool) (t : TextToImageBackend W) :
    generateImage_checks P env isVariation t =
      match firstViolated sourceOrder P env isVariation t.stableDiffusion t.m_options with
      | some p => showErrorDlg (p.message t.m_options) t
      | none => generateImage_start P isVariation t := by
  unfold generateImage_checks firstViolated sourceOrder isValidInitImage
  simp only [List.find?, Precondition.violated]
  unfold Precondition.message
  generalize (isVariation && !P.isDreamRunning t.stableDiffusion) = b1
  generalize checkPathExists env.fs t.m_options.saveDir = b2
  generalize t.m_options.imageToImage = b3
  generalize checkPathExists env.fs t.m_options.initImagePath = b4
  generalize t.m_options.useMaskImage = b5
  generalize checkPathExists env.fs t.m_options.maskImagePath = b6
  generalize t.m_options.faceRestoration = b7
  generalize (t.m_options.faceRestorationMethod == "GFPGAN") = b8
  generalize env.validateGfpGanModel = b9
  generalize env.validateCodeFormerModel = b10
  generalize (t.m_options.prompt == "") = b11
  cases b1
  · cases b2
    · rfl
    · cases b3 <;> cases b4 <;> cases b5 <;> cases b6 <;> cases b7 <;> cases b8 <;>
        cases b9 <;> cases b10 <;> cases b11 <;> rfl
  · rfl

/-- The head of `generateImage` clears the cancellation flag, issues at most two `stopProcess`
calls and changes nothing else. -/
theorem generateImage_tiChecks_eq (P : DiffusionProcess W) (s : TextToImageBackend W) :
    ∃ (n : Nat) (w : W), n ≤ 2 ∧
      generateImage_tiChecks P s =
        { s with isCancelled := false, stableDiffusion := w,
                 log := s.log ++ List.replicate n Action.diffusionStopProcess } := by
  unfold generateImage_tiChecks
  simp only []
  split_ifs
  · exact ⟨2, P.stopProcess (P.stopProcess s.stableDiffusion), le_refl _,
      by simp [callStopProcess, record, List.replicate]⟩
  · exact ⟨1, P.stopProcess s.stableDiffusion, by omega,
      by simp [callStopProcess, record, List.replicate]⟩
  · exact ⟨1, P.stopProcess s.stableDiffusion, by omega,
      by simp [callStopProcess, record, List.replicate]⟩
  · exact ⟨1, P.stopProcess s.stableDiffusion, by omega,
      by simp [callStopProcess, record, List.replicate]⟩
  · exact ⟨0, s.stableDiffusion, by omega, by simp [callStopProcess, record, List.replicate]⟩
  · exact ⟨0, s.stableDiffusion, by omega, by simp [callStopProcess, record, List.replicate]⟩

/-- Every call of `generateImage` either ends in the error dialog of the first violated
precondition in source order, or starts the worker; in both cases after at most two
`stopProcess` calls. -/
theorem generateImage_result (P : DiffusionProcess W) (env : Surroundings) (isVariation : Bool)
    (s : TextToImageBackend W) :
    ∃ (n : Nat) (w : W), n ≤ 2 ∧ (generateImage_tiChecks P s).stableDiffusion = w ∧
      ((∃ p, firstViolated sourceOrder P env isVariation w s.m_options = some p ∧
          generateImage P env isVariation s =
            { s with isCancelled := false, stableDiffusion := w,
                     errorMsg := p.message s.m_options,
                     log := s.log ++ (List.replicate n Action.diffusionStopProcess
                        ++ [.gotErrorMessage, .showMessageBox]) }) ∨
        (firstViolated sourceOrder P env isVariation w s.m_options = none ∧
          generateImage P env isVariation s =
            { s with isCancelled := false, isProcessing := true,
                     samplesPath := localPathToUrl s.deafultAssetsPath,
                     diffusionStatusMsg :=
                       if P.getStatus w = StableDiffusionStatus.NotStarted then
                         "Loading model,please wait..."
                       else "Starting image generation...",
                     stableDiffusion := P.generateImages s.m_options isVariation w,
                     log := s.log ++ (List.replicate n Action.diffusionStopProcess
                        ++ [.statusChanged, .diffusionGenerateImages s.m_options isVariation,
                            .samplesPathChanged, .isProcessingChanged]) })) := by
  obtain ⟨n, w, hn, ht⟩ := generateImage_tiChecks_eq P s
  refine ⟨n, w, hn, by rw [ht], ?_⟩
  unfold generateImage
  rw [ht, generateImage_checks_eq]
  simp only []
  cases hf : firstViolated sourceOrder P env isVariation w s.m_options with
  | some p =>
    left
    exact ⟨p, rfl, by simp [showErrorDlg, record]⟩
  | none =>
    right
    refine ⟨rfl, ?_⟩
    by_cases hst : P.getStatus w = StableDiffusionStatus.NotStarted <;>
      simp [generateImage_start, updateStatusMessage, callGenerateImages, record, hst]

theorem firstViolated_sourceOrder_of_prompt_empty (P : DiffusionProcess W) (env : Surroundings)
    (isVariation : Bool) (w : W) (o : DiffusionOptions) (h : o.prompt = "") :
    firstViolated sourceOrder P env isVariation w o ≠ none := by
  intro hnone
  have hall := List.find?_eq_none.1 hnone Precondition.prompt (by simp [sourceOrder])
  simp [Precondition.violated, h] at hall

theorem replicate_stop_no_start (n : Nat) (o : DiffusionOptions) (v : Bool) :
    Action.diffusionGenerateImages o v ∉ List.replicate n Action.diffusionStopProcess := by
  intro hmem
  have := List.eq_of_mem_replicate hmem
  cases this

/-- The exact trace of a rejected request with an empty prompt: the stop of the mode check
when the worker's textual-inversion mode differs from the options', the stop of the concept
check when textual inversion is on and the worker's current concept, read after the mode
check, is non-empty and differs from the options', then the error dialog. -/
theorem generateImage_empty_prompt_trace (P : DiffusionProcess W) (env : Surroundings)
    (isVariation : Bool) (s : TextToImageBackend W) (h : s.m_options.prompt = "") (w1 : W)
    (hw1 : w1 = if P.getUseTiConcept s.stableDiffusion = s.m_options.useTextualInversion
                then s.stableDiffusion else P.stopProcess s.stableDiffusion) :
    performed s (generateImage P env isVariation s) =
      (if P.getUseTiConcept s.stableDiffusion = s.m_options.useTextualInversion then []
        else [Action.diffusionStopProcess]) ++
      (if s.m_options.useTextualInversion = true ∧ P.getCurTiConcept w1 ≠ "" ∧
          P.getCurTiConcept w1 ≠ s.m_options.tiConceptStyle then [Action.diffusionStopProcess]
        else []) ++
      [.gotErrorMessage, .showMessageBox] := by
  obtain ⟨n, w, _, ht⟩ := generateImage_tiChecks_eq P s
  have hm : (generateImage_tiChecks P s).m_options = s.m_options := by rw [ht]
  have hlog : (generateImage_tiChecks P s).log = s.log ++
      ((if P.getUseTiConcept s.stableDiffusion = s.m_options.useTextualInversion then []
        else [Action.diffusionStopProcess]) ++
      (if s.m_options.useTextualInversion = true ∧ P.getCurTiConcept w1 ≠ "" ∧
          P.getCurTiConcept w1 ≠ s.m_options.tiConceptStyle then [Action.diffusionStopProcess]
        else [])) := by
    subst hw1
    unfold generateImage_tiChecks
    cases hu : P.getUseTiConcept s.stableDiffusion <;>
      cases ho : s.m_options.useTextualInversion
    · simp [hu, ho, callStopProcess, record]
    · by_cases he : P.getCurTiConcept (P.stopProcess s.stableDiffusion) = ""
      · simp [hu, ho, he, callStopProcess, record]
      · by_cases hd : P.getCurTiConcept (P.stopProcess s.stableDiffusion)
            = s.m_options.tiConceptStyle
        · simp [hu, ho, he, hd, callStopProcess, record]
        · simp [hu, ho, he, hd, callStopProcess, record]
    · simp [hu, ho, callStopProcess, record]
    · by_cases he : P.getCurTiConcept s.stableDiffusion = ""
      · simp [hu, ho, he, callStopProcess, record]
      · by_cases hd : P.getCurTiConcept s.stableDiffusion = s.m_options.tiConceptStyle
        · simp [hu, ho, he, hd, callStopProcess, record]
        · simp [hu, ho, he, hd, callStopProcess, record]
  apply performed_of_log_eq
  unfold generateImage
  rw [generateImage_checks_eq]
  cases hf : firstViolated sourceOrder P env isVariation
      (generateImage_tiChecks P s).stableDiffusion (generateImage_tiChecks P s).m_options with
  | some q =>
    simp only []
    simp [showErrorDlg, record, hlog]
  | none =>
    exact absurd hf (firstViolated_sourceOrder_of_prompt_empty P env isVariation _ _
      (by rw [hm]; exact h))

/-! ### Requests with an empty prompt -/

/-- C1 (as amended): for every controller state whose options have an empty prompt and for
both values of `isVariation`, `generateImage` rejects: it issues no `generateImages` call,
shows one error dialog, and leaves `isProcessing`, `isModelLoaded`, the status message and the
options as they were. `isCancelled` is `false` afterwards whatever it was before. The worker is
asked to stop, before the dialog, exactly when its textual-inversion mode differs from the
options' (one `stopProcess` call) or textual inversion is on and the worker's current concept,
read after the mode check, is non-empty and differs from the options' concept (one more
`stopProcess` call); the actions of the call are exactly these stops followed by the dialog. -/
theorem generateImage_empty_prompt_rejects (P : DiffusionProcess W) (env : Surroundings)
    (isVariation : Bool) (s : TextToImageBackend W) (h : s.m_options.prompt = "") :
    (∀ o v, Action.diffusionGenerateImages o v ∉
        performed s (generateImage P env isVariation s)) ∧
    (generateImage P env isVariation s).isProcessing = s.isProcessing ∧
    (generateImage P env isVariation s).isModelLoaded = s.isModelLoaded ∧
    (generateImage P env isVariation s).diffusionStatusMsg = s.diffusionStatusMsg ∧
    (generateImage P env isVariation s).m_options = s.m_options ∧
    (generateImage P env isVariation s).isCancelled = false ∧
    (∃ n, n ≤ 2 ∧ performed s (generateImage P env isVariation s) =
        List.replicate n Action.diffusionStopProcess ++ [.gotErrorMessage, .showMessageBox]) ∧
    (P.getUseTiConcept s.stableDiffusion = s.m_options.useTextualInversion →
      (s.m_options.useTextualInversion = false ∨ P.getCurTiConcept s.stableDiffusion = "" ∨
        P.getCurTiConcept s.stableDiffusion = s.m_options.tiConceptStyle) →
      performed s (generateImage P env isVariation s) = [.gotErrorMessage, .showMessageBox] ∧
      (generateImage P env isVariation s).stableDiffusion = s.stableDiffusion) ∧
    (∀ w1 : W,
      w1 = (if P.getUseTiConcept s.stableDiffusion = s.m_options.useTextualInversion
            then s.stableDiffusion else P.stopProcess s.stableDiffusion) →
      performed s (generateImage P env isVariation s) =
        (if P.getUseTiConcept s.stableDiffusion = s.m_options.useTextualInversion then []
          else [Action.diffusionStopProcess]) ++
        (if s.m_options.useTextualInversion = true ∧ P.getCurTiConcept w1 ≠ "" ∧
            P.getCurTiConcept w1 ≠ s.m_options.tiConceptStyle then [Action.diffusionStopProcess]
          else []) ++
        [.gotErrorMessage, .showMessageBox] ∧
      (Action.diffusionStopProcess ∈ performed s (generateImage P env isVariation s) ↔
        (P.getUseTiConcept s.stableDiffusion ≠ s.m_options.useTextualInversion ∨
          (s.m_options.useTextualInversion = true ∧ P.getCurTiConcept w1 ≠ "" ∧
            P.getCurTiConcept w1 ≠ s.m_options.tiConceptStyle)))) := by
  have htrace : ∀ w1 : W,
      w1 = (if P.getUseTiConcept s.stableDiffusion = s.m_options.useTextualInversion
            then s.stableDiffusion else P.stopProcess s.stableDiffusion) →
      performed s (generateImage P env isVariation s) =
        (if P.getUseTiConcept s.stableDiffusion = s.m_options.useTextualInversion then []
          else [Action.diffusionStopProcess]) ++
        (if s.m_options.useTextualInversion = true ∧ P.getCurTiConcept w1 ≠ "" ∧
            P.getCurTiConcept w1 ≠ s.m_options.tiConceptStyle then [Action.diffusionStopProcess]
          else []) ++
        [.gotErrorMessage, .showMessageBox] ∧
      (Action.diffusionStopProcess ∈ performed s (generateImage P env isVariation s) ↔
        (P.getUseTiConcept s.stableDiffusion ≠ s.m_options.useTextualInversion ∨
          (s.m_options.useTextualInversion = true ∧ P.getCurTiConcept w1 ≠ "" ∧
            P.getCurTiConcept w1 ≠ s.m_options.tiConceptStyle))) := by
    intro w1 hw1
    have ha := generateImage_empty_prompt_trace P env isVariation s h w1 hw1
    refine ⟨ha, ?_⟩
    rw [ha]
    by_cases hmode : P.getUseTiConcept s.stableDiffusion = s.m_options.useTextualInversion <;>
      by_cases hc : (s.m_options.useTextualInversion = true ∧ P.getCurTiConcept w1 ≠ "" ∧
            P.getCurTiConcept w1 ≠ s.m_options.tiConceptStyle) <;>
      simp [hmode, hc]
  obtain ⟨n, w, hn, hw, hr⟩ := generateImage_result P env isVariation s
  rcases hr with ⟨p, _, hr⟩ | ⟨hnone, _⟩
  · have hperf : performed s (generateImage P env isVariation s) =
        List.replicate n Action.diffusionStopProcess ++ [.gotErrorMessage, .showMessageBox] :=
      performed_of_log_eq (by rw [hr])
    refine ⟨?_, by rw [hr], by rw [hr], by rw [hr], by rw [hr], by rw [hr], ⟨n, hn, hperf⟩, ?_,
      htrace⟩
    · intro o v hmem
      rw [hperf] at hmem
      rcases List.mem_append.1 hmem with h1 | h1
      · exact replicate_stop_no_start n o v h1
      · simp at h1
    · intro hmode hconcept
      have ht : generateImage_tiChecks P s = { s with isCancelled := false } := by
        unfold generateImage_tiChecks
        simp only [hmode, bne_self_eq_false, Bool.false_eq_true, if_false]
        rcases hconcept with hc | hc | hc
        · simp [hc]
        · simp [hc]
        · simp [hc]
      have hr2 : generateImage P env isVariation s =
          generateImage_checks P env isVariation { s with isCancelled := false } := by
        unfold generateImage
        rw [ht]
      rw [hr2, generateImage_checks_eq]
      simp only []
      cases hf : firstViolated sourceOrder P env isVariation s.stableDiffusion s.m_options with
      | some q =>
        exact ⟨performed_of_log_eq (by simp [showErrorDlg, record]), by simp [showErrorDlg, record]⟩
      | none =>
        exact absurd hf (firstViolated_sourceOrder_of_prompt_empty P env isVariation _ _ h)
  · exact absurd hnone (firstViolated_sourceOrder_of_prompt_empty P env isVariation _ _ h)

/-- Witness for C1: the cancelled controller with an empty prompt. -/
theorem generateImage_empty_prompt_rejects_witness :
    cancelledBackend.m_options.prompt = "" ∧
    (generateImage asyncWorker sampleSurroundings false cancelledBackend).isProcessing
      = cancelledBackend.isProcessing :=
  ⟨rfl, (generateImage_empty_prompt_rejects asyncWorker sampleSurroundings false
    cancelledBackend rfl).2.1⟩

/-- C1 (counterexample): on a controller whose last run was cancelled, whose worker runs
without textual inversion and whose options have an empty prompt and textual inversion on,
`generateImage` changes `isCancelled` from `true` to `false` and requests a stop of the
worker. -/
theorem generateImage_empty_prompt_mutates :
    cancelledBackend.m_options.prompt = "" ∧
    cancelledBackend.isCancelled = true ∧
    (generateImage asyncWorker sampleSurroundings false cancelledBackend).isCancelled = false ∧
    Action.diffusionStopProcess ∈
      performed cancelledBackend
        (generateImage asyncWorker sampleSurroundings false cancelledBackend) := by
  decide

/-! ### Order of the precondition checks -/

/-- C2 (as amended): `generateImage` tests its preconditions in the order: base run for a
variation; output directory exists; (if image-to-image) source image exists, then (if mask
mode) mask image exists; (if face restoration) restoration model for the selected method is
ready; prompt non-empty. When some precondition is violated the message shown is that of the
first violated one in this order and no `generateImages` call is made; when none is violated
the error message is unchanged. In particular, when the request is not a variation, the output
directory and images are valid, face restoration is enabled and the selected restoration model
is not ready, the message shown is the face-restoration message of the selected method,
whether or not the prompt is empty. -/
theorem generateImage_error_follows_source_order (P : DiffusionProcess W) (env : Surroundings)
    (isVariation : Bool) (s : TextToImageBackend W) :
    (∀ p, firstViolated sourceOrder P env isVariation
          (generateImage_tiChecks P s).stableDiffusion s.m_options = some p →
        (generateImage P env isVariation s).errorMsg = p.message s.m_options ∧
        (∃ n, performed s (generateImage P env isVariation s) =
          List.replicate n Action.diffusionStopProcess ++ [.gotErrorMessage, .showMessageBox])) ∧
    (firstViolated sourceOrder P env isVariation
          (generateImage_tiChecks P s).stableDiffusion s.m_options = none →
        (generateImage P env isVariation s).errorMsg = s.errorMsg ∧
        Action.diffusionGenerateImages s.m_options isVariation ∈
          performed s (generateImage P env isVariation s)) ∧
    (isVariation = false →
      checkPathExists env.fs s.m_options.saveDir = true →
      (s.m_options.imageToImage = true →
        checkPathExists env.fs s.m_options.initImagePath = true ∧
        (s.m_options.useMaskImage = true →
          checkPathExists env.fs s.m_options.maskImagePath = true)) →
      s.m_options.faceRestoration = true →
      (if s.m_options.faceRestorationMethod = "GFPGAN" then env.validateGfpGanModel
        else env.validateCodeFormerModel) = false →
      (generateImage P env isVariation s).errorMsg =
        (if s.m_options.faceRestorationMethod = "GFPGAN" then
          "To use face restoration, please download GFPGAN model from downloads tab."
        else
          "To use face restoration, please download Code Former model from downloads tab.")) := by
  obtain ⟨n, w, hn, hw, hr⟩ := generateImage_result P env isVariation s
  rw [hw]
  have part1 : ∀ p, firstViolated sourceOrder P env isVariation w s.m_options = some p →
      (generateImage P env isVariation s).errorMsg = p.message s.m_options ∧
      (∃ n, performed s (generateImage P env isVariation s) =
        List.replicate n Action.diffusionStopProcess ++ [.gotErrorMessage, .showMessageBox]) := by
    intro p hp
    rcases hr with ⟨q, hq, hr⟩ | ⟨hnone, _⟩
    · rw [hp] at hq
      cases hq
      exact ⟨by rw [hr], n, performed_of_log_eq (by rw [hr])⟩
    · rw [hp] at hnone
      cases hnone
  refine ⟨part1, ?_, ?_⟩
  · intro hnone
    rcases hr with ⟨q, hq, _⟩ | ⟨_, hr⟩
    · rw [hnone] at hq
      cases hq
    · refine ⟨by rw [hr], ?_⟩
      rw [performed_of_log_eq (by rw [hr])]
      simp
  · intro hv hdir himg hface hmodel
    have hfirst : firstViolated sourceOrder P env isVariation w s.m_options
        = some Precondition.restorationModel := by
      subst hv
      unfold firstViolated sourceOrder
      simp only [List.find?, Precondition.violated, hdir, hface]
      by_cases hg : s.m_options.faceRestorationMethod = "GFPGAN"
      · rw [if_pos hg] at hmodel
        cases hi : s.m_options.imageToImage
        · simp [hg, hmodel]
        · obtain ⟨h1, h2⟩ := himg hi
          cases hm : s.m_options.useMaskImage
          · simp [hg, hmodel, h1]
          · simp [hg, hmodel, h1, h2 hm]
      · rw [if_neg hg] at hmodel
        cases hi : s.m_options.imageToImage
        · simp [hg, hmodel]
        · obtain ⟨h1, h2⟩ := himg hi
          cases hm : s.m_options.useMaskImage
          · simp [hg, hmodel, h1]
          · simp [hg, hmodel, h1, h2 hm]
    rw [(part1 _ hfirst).1]
    by_cases hg : s.m_options.faceRestorationMethod = "GFPGAN" <;>
      simp [Precondition.message, hg]

/-- Witness for C2: a fresh controller with empty prompt, face restoration by GFPGAN and no
GFPGAN model. -/
theorem generateImage_error_follows_source_order_witness :
    firstViolated sourceOrder asyncWorker sampleSurroundings false
        (generateImage_tiChecks asyncWorker
          (freshBackend faceRestorationOptions idleWorker)).stableDiffusion
        (freshBackend faceRestorationOptions idleWorker).m_options
      = some Precondition.restorationModel ∧
    (generateImage asyncWorker sampleSurroundings false
        (freshBackend faceRestorationOptions idleWorker)).errorMsg
      = Precondition.restorationModel.message
          (freshBackend faceRestorationOptions idleWorker).m_options :=
  ⟨by decide,
    ((generateImage_error_follows_source_order asyncWorker sampleSurroundings false
      (freshBackend faceRestorationOptions idleWorker)).1 Precondition.restorationModel
        (by decide)).1⟩

/-- C2 (counterexample): with a valid output directory, no image-to-image, an empty prompt,
face restoration by GFPGAN enabled and the GFPGAN model not ready, the first violated
precondition in the order of the specification is the prompt, yet the message shown is the
GFPGAN message and not the empty-prompt message. -/
theorem generateImage_restoration_checked_before_prompt :
    firstViolated specOrder asyncWorker sampleSurroundings false idleWorker
        faceRestorationOptions = some Precondition.prompt ∧
    (generateImage asyncWorker sampleSurroundings false
        (freshBackend faceRestorationOptions idleWorker)).errorMsg
      = "To use face restoration, please download GFPGAN model from downloads tab." ∧
    (generateImage asyncWorker sampleSurroundings false
        (freshBackend faceRestorationOptions idleWorker)).errorMsg
      ≠ "Please provide a prompt text." := by
  decide

/-! ### Change of the textual-inversion concept -/

/-- C9: for every source image path, written as directory components followed by a file name
made of dot-delimited segments, `getSeedFromFileName` returns the second segment, and the
empty string when there is only one segment; being a total function, it never fails.
`generateVariations` stores exactly that string as the seed of the options, and every
`generateImages` call it leads to is a variation request carrying that seed. For the file
name `image.1234.png` the seed is "1234". -/
theorem getSeedFromFileName_second_segment (dirs segs : List (List Char))
    (hd : ∀ d ∈ dirs, '/' ∉ d) (hs : ∀ seg ∈ segs, '/' ∉ seg ∧ '.' ∉ seg) (hne : segs ≠ []) :
    getSeedFromFileName ⟨String.mk (['/'].intercalate (dirs ++ [['.'].intercalate segs]))⟩
      = String.mk (segs.getD 1 []) ∧
    (∀ (P : DiffusionProcess W) (env : Surroundings) (imagePath : QUrl)
        (s : TextToImageBackend W),
      (generateVariations P env imagePath s).m_options.seed = getSeedFromFileName imagePath ∧
      (generateVariations P env imagePath s).m_options
        = { s.m_options with seed := getSeedFromFileName imagePath } ∧
      generateVariations P env imagePath s = record [.showDreamPage]
        (generateImage P env true
          { s with m_options := { s.m_options with seed := getSeedFromFileName imagePath } }) ∧
      ∀ o v, Action.diffusionGenerateImages o v ∈ performed s (generateVariations P env imagePath s)
        → o.seed = getSeedFromFileName imagePath ∧ v = true) ∧
    getSeedFromFileName ⟨"image.1234.png"⟩ = "1234" ∧
    getSeedFromFileName ⟨"/home/user/out/image.1234.png"⟩ = "1234" := by
  refine ⟨?_, ?_, by decide, by decide⟩
  · rw [getSeedFromFileName_eq]
    have hslash : '/' ∉ ['.'].intercalate segs :=
      not_mem_intercalate '/' '.' (by decide) segs (fun seg h => (hs seg h).1)
    rw [fileName_of_components dirs _ hd hslash]
    rw [splitChars_intercalate '.' segs hne (fun seg h => (hs seg h).2)]
  · intro P env imagePath s
    obtain ⟨n, w, _, _, hr⟩ := generateImage_result P env true
      { s with m_options := { s.m_options with seed := getSeedFromFileName imagePath } }
    have hdef : generateVariations P env imagePath s = record [.showDreamPage]
        (generateImage P env true
          { s with m_options := { s.m_options with seed := getSeedFromFileName imagePath } }) :=
      rfl
    rcases hr with ⟨p, _, hr⟩ | ⟨_, hr⟩
    · refine ⟨by rw [hdef, hr]; rfl, by rw [hdef, hr]; rfl, hdef, ?_⟩
      intro o v hmem
      have hlog : (generateVariations P env imagePath s).log = s.log ++
          (List.replicate n Action.diffusionStopProcess
            ++ [.gotErrorMessage, .showMessageBox, .showDreamPage]) := by
        rw [hdef, hr]
        simp [record]
      rw [performed_of_log_eq hlog] at hmem
      rcases List.mem_append.1 hmem with h1 | h1
      · exact absurd h1 (replicate_stop_no_start n o v)
      · simp at h1
    · refine ⟨by rw [hdef, hr]; rfl, by rw [hdef, hr]; rfl, hdef, ?_⟩
      intro o v hmem
      have hlog : (generateVariations P env imagePath s).log = s.log ++
          (List.replicate n Action.diffusionStopProcess
            ++ [.statusChanged,
                .diffusionGenerateImages
                  { s.m_options with seed := getSeedFromFileName imagePath } true,
                .samplesPathChanged, .isProcessingChanged, .showDreamPage]) := by
        rw [hdef, hr]
        simp [record]
      rw [performed_of_log_eq hlog] at hmem
      rcases List.mem_append.1 hmem with h1 | h1
      · exact absurd h1 (replicate_stop_no_start n o v)
      · simp at h1
        obtain ⟨rfl, rfl⟩ := h1
        exact ⟨rfl, rfl⟩

/-- Witness for C9: the path `/tmp/image.1234.png`. -/
theorem getSeedFromFileName_second_segment_witness :
    (∀ seg ∈ ["image".data, "1234".data, "png".data], '/' ∉ seg ∧ '.' ∉ seg) ∧
    getSeedFromFileName ⟨"/tmp/image.1234.png"⟩ = "1234" :=
  ⟨by decide,
    (@getSeedFromFileName_second_segment WorkerView [[], "tmp".data]
      ["image".data, "1234".data, "png".data] (by decide) (by decide) (by decide)).1⟩

/-- C10 (as amended): for every source image whose file name is `image.png`,
`getSeedFromFileName` returns "png", the second dot-delimited segment of the name, which is
not the empty seed; a name without a dot, such as `image`, gives the empty seed. -/
theorem getSeedFromFileName_image_png (imagePath : QUrl)
    (h : fileName imagePath.toLocalFile = "image.png") :
    getSeedFromFileName imagePath = "png" ∧
    getSeedFromFileName ⟨"image"⟩ = "" := by
  refine ⟨?_, by decide⟩
  rw [getSeedFromFileName_eq, h]
  decide

/-- Witness for C10: the path `/tmp/image.png`. -/
theorem getSeedFromFileName_image_png_witness :
    fileName "/tmp/image.png" = "image.png" ∧
    getSeedFromFileName ⟨"/tmp/image.png"⟩ = "png" :=
  ⟨by decide, (getSeedFromFileName_image_png ⟨"/tmp/image.png"⟩ (by decide)).1⟩

/-- C10 (counterexample): for the file name `image.png` the seed returned is not empty. -/
theorem getSeedFromFileName_image_png_not_empty :
    getSeedFromFileName ⟨"image.png"⟩ ≠ "" := by
  decide

end SDImageGenerator
